import Mathlib

/-!
Verification development for the screen-capture service.

The development shallowly embeds the capture service of the repository:
the geometry helpers (positions, vectors, rectangles in the style of the
egui and emath crates), the error type of types.rs, the CaptureArea and
ScreenInfo records, and the operations of CaptureService in capture.rs.
Coordinates are modelled as rational numbers; the platform display
enumeration and the platform capture primitive are modelled as explicit
inputs (a list of available screens carrying an optional encoded buffer),
and image decoding is an explicit function argument, so that every
operation is an executable total function.
-/

/-- A position in two-dimensional space, after egui Pos2 (fields x, y). -/
structure Pos2 where
  x : ℚ
  y : ℚ
deriving DecidableEq, Repr

/-- A size or offset in two-dimensional space, after egui Vec2. -/
structure Vec2 where
  x : ℚ
  y : ℚ
deriving DecidableEq, Repr

/-- An axis-aligned rectangle given by two corners, after egui (emath) Rect. -/
structure Rect where
  min : Pos2
  max : Pos2
deriving DecidableEq, Repr

/-- Rect::from_min_max of emath: build a rectangle from its two corners. -/
def Rect.from_min_max (mn mx : Pos2) : Rect :=
  { min := mn, max := mx }

/-- Rect::from_min_size of emath: the max corner is min plus the size. -/
def Rect.from_min_size (mn : Pos2) (size : Vec2) : Rect :=
  { min := mn, max := { x := mn.x + size.x, y := mn.y + size.y } }

/-- Rect::width of emath. -/
def Rect.width (r : Rect) : ℚ :=
  r.max.x - r.min.x

/-- Rect::height of emath. -/
def Rect.height (r : Rect) : ℚ :=
  r.max.y - r.min.y

/-- Rect::center of emath: the midpoint of the two corners. -/
def Rect.center (r : Rect) : Pos2 :=
  { x := (r.min.x + r.max.x) / 2, y := (r.min.y + r.max.y) / 2 }

/-- Rect::contains of emath, the containment test used by the service.
In the emath source it reads: min.x le p.x and p.x le max.x and
min.y le p.y and p.y le max.y — inclusive on both the min and the max
edge. -/
def Rect.contains (r : Rect) (p : Pos2) : Bool :=
  decide (r.min.x ≤ p.x) && decide (p.x ≤ r.max.x) &&
  decide (r.min.y ≤ p.y) && decide (p.y ≤ r.max.y)

/-- Geometric area of a rectangle, width times height (a helper used to
state the desktop-bounds claim; not a method of the source Rect). -/
def Rect.area (r : Rect) : ℚ :=
  r.width * r.height

/-- The outer rectangle covers the inner one: every component of the
inner rectangle lies between the corresponding components of the outer
one (a helper used to state the desktop-bounds claim). -/
def rect_covers (outer inner : Rect) : Prop :=
  outer.min.x ≤ inner.min.x ∧ outer.min.y ≤ inner.min.y ∧
  inner.max.x ≤ outer.max.x ∧ inner.max.y ≤ outer.max.y

instance (outer inner : Rect) : Decidable (rect_covers outer inner) := by
  unfold rect_covers
  infer_instance

/-- The application error type of types.rs. Every payload is modelled as
a String; the FileAccess variant wraps an io error, modelled by its
message. -/
inductive AppError where
  | HotkeyRegistration : String → AppError
  | ScreenCapture : String → AppError
  | FileAccess : String → AppError
  | Clipboard : String → AppError
  | ImageProcessing : String → AppError
  | Settings : String → AppError
deriving DecidableEq, Repr

/-- The kind (constructor tag) of an application error, forgetting the
message payload. A caller can distinguish two errors by kind exactly
when they use different constructors of AppError. -/
inductive AppErrorKind where
  | hotkeyRegistration
  | screenCapture
  | fileAccess
  | clipboard
  | imageProcessing
  | settings
deriving DecidableEq, Repr

/-- Map an application error to its kind. -/
def AppError.kind : AppError → AppErrorKind
  | .HotkeyRegistration _ => .hotkeyRegistration
  | .ScreenCapture _ => .screenCapture
  | .FileAccess _ => .fileAccess
  | .Clipboard _ => .clipboard
  | .ImageProcessing _ => .imageProcessing
  | .Settings _ => .settings

/-- Information about one screen, after ScreenInfo in types.rs. -/
structure ScreenInfo where
  index : ℕ
  bounds : Rect
  dpi_scale_x : ℚ
  dpi_scale_y : ℚ
  is_primary : Bool
deriving DecidableEq, Repr

/-- A pending capture request, after CaptureArea in types.rs. -/
structure CaptureArea where
  bounds : Rect
  screen_index : ℕ
  dpi_scale_x : ℚ
  dpi_scale_y : ℚ
deriving DecidableEq, Repr

/-- CaptureArea::with_dpi_scaling of types.rs. -/
def CaptureArea.with_dpi_scaling (bounds : Rect) (screen_index : ℕ)
    (dpi_scale_x dpi_scale_y : ℚ) : CaptureArea :=
  { bounds := bounds, screen_index := screen_index,
    dpi_scale_x := dpi_scale_x, dpi_scale_y := dpi_scale_y }

/-- CaptureArea::physical_bounds of types.rs: min scaled component-wise
by the DPI factors, and the size (width, height) scaled likewise, then
reassembled with Rect::from_min_size. -/
def CaptureArea.physical_bounds (a : CaptureArea) : Rect :=
  let mn : Pos2 := { x := a.bounds.min.x * a.dpi_scale_x,
                     y := a.bounds.min.y * a.dpi_scale_y }
  let size : Vec2 := { x := a.bounds.width * a.dpi_scale_x,
                       y := a.bounds.height * a.dpi_scale_y }
  Rect.from_min_size mn size

/-- A raw platform display descriptor, after Screen of the screenshots
crate: x and y are signed integers, width and height unsigned. The
capture_result field models the response of the platform capture
primitive for this screen — none when the platform declines, otherwise
the encoded (for example PNG) byte buffer it returns. -/
structure Screen where
  x : ℤ
  y : ℤ
  width : ℕ
  height : ℕ
  capture_result : Option (List ℕ)
deriving DecidableEq, Repr

/-- A decoded image; models the geometry of image::DynamicImage. -/
structure Img where
  width : ℕ
  height : ℕ
deriving DecidableEq, Repr

/-- The capture service state of capture.rs: the raw platform screens
and the screen cache. The cache (a HashMap in the source) is modelled as
an association list in insertion order. -/
structure CaptureService where
  screens : List Screen
  screen_cache : List (ℕ × ScreenInfo)
deriving DecidableEq, Repr

/-- Build one ScreenInfo cache entry from a raw screen, exactly as the
loop body of refresh_screen_info does: bounds from min (x, y) and size
(width, height), DPI scale 1.0 on both axes, primary iff index zero. -/
def mk_screen_info (index : ℕ) (s : Screen) : ScreenInfo :=
  { index := index,
    bounds := Rect.from_min_size { x := (s.x : ℚ), y := (s.y : ℚ) }
                                 { x := (s.width : ℚ), y := (s.height : ℚ) },
    dpi_scale_x := 1,
    dpi_scale_y := 1,
    is_primary := index == 0 }

/-- The enumerated cache rebuild of refresh_screen_info: one entry per
screen, keyed and stamped by its position in enumeration order starting
at i. -/
def build_cache_from (i : ℕ) : List Screen → List (ℕ × ScreenInfo)
  | [] => []
  | s :: rest => (i, mk_screen_info i s) :: build_cache_from (i + 1) rest

/-- CaptureService::refresh_screen_info: clears the cache, re-reads the
display enumeration (modelled by the avail argument standing for
Screen::all), and rebuilds the cache in enumeration order. The source
returns Ok(()) unconditionally; the model returns the updated service. -/
def CaptureService.refresh_screen_info (avail : List Screen)
    (_svc : CaptureService) : Except AppError CaptureService :=
  .ok { screens := avail, screen_cache := build_cache_from 0 avail }

/-- CaptureService::new: enumerate displays (the avail argument models
Screen::all), fail when none are found, otherwise initialize the cache
via refresh_screen_info. -/
def CaptureService.new (avail : List Screen) : Except AppError CaptureService :=
  if avail.isEmpty then
    .error (.ScreenCapture "No screens found on the system")
  else
    CaptureService.refresh_screen_info avail
      { screens := avail, screen_cache := [] }

/-- The Default implementation for CaptureService: use new, and fall
back to a service with empty screens and an empty cache when new fails. -/
def CaptureService.default (avail : List Screen) : CaptureService :=
  match CaptureService.new avail with
  | .ok s => s
  | .error _ => { screens := [], screen_cache := [] }

/-- The values of the screen cache, in the iteration order of the model
(insertion order); corresponds to self.screen_cache.values(). -/
def CaptureService.values (svc : CaptureService) : List ScreenInfo :=
  svc.screen_cache.map Prod.snd

/-- CaptureService::get_screen_info: look the index up in the cache,
failing with the screen-info-not-found message when absent. -/
def CaptureService.get_screen_info (svc : CaptureService) (screen_index : ℕ) :
    Except AppError ScreenInfo :=
  match svc.screen_cache.find? (fun p => p.1 == screen_index) with
  | some p => .ok p.2
  | none => .error (.ScreenCapture
      ("Screen info for index " ++ toString screen_index ++ " not found"))

/-- CaptureService::capture_screen_by_index: look up the platform screen
(index out of range fails), invoke the platform capture primitive (a
declined capture fails), then decode the returned encoded buffer with
the decode argument, which models image::load_from_memory (a failed
decode fails with the decode message). -/
def CaptureService.capture_screen_by_index
    (decode : List ℕ → Except String Img) (svc : CaptureService)
    (screen_index : ℕ) : Except AppError Img :=
  match svc.screens.get? screen_index with
  | none => .error (.ScreenCapture
      ("Screen index " ++ toString screen_index ++ " not found"))
  | some screen =>
    match screen.capture_result with
    | none => .error (.ScreenCapture
        ("Failed to capture screen " ++ toString screen_index))
    | some buffer =>
      match decode buffer with
      | .error e => .error (.ScreenCapture ("Failed to decode PNG data: " ++ e))
      | .ok dynamic_image => .ok dynamic_image

/-- CaptureService::find_screen_at_point: the first cached screen whose
bounds contain the point. -/
def CaptureService.find_screen_at_point (svc : CaptureService) (point : Pos2) :
    Option ScreenInfo :=
  svc.values.find? (fun screen => screen.bounds.contains point)

/-- The coordinate normalization at the top of create_capture_area:
component-wise min of the two points as the min corner, component-wise
max as the max corner. -/
def normalize_selection (start finish : Pos2) : Rect :=
  Rect.from_min_max
    { x := min start.x finish.x, y := min start.y finish.y }
    { x := max start.x finish.x, y := max start.y finish.y }

/-- CaptureService::create_capture_area: normalize the two drag points,
resolve the owning screen from the center of the normalized rectangle
(failing when no screen contains it), translate into screen-relative
coordinates by subtracting the owning screen bounds min, and stamp the
area with the owning screen index and DPI scale values. -/
def CaptureService.create_capture_area (svc : CaptureService)
    (start finish : Pos2) : Except AppError CaptureArea :=
  let bounds := normalize_selection start finish
  let center := bounds.center
  match svc.find_screen_at_point center with
  | none => .error (.ScreenCapture "Selection area is not within any screen")
  | some screen_info =>
    let relative_bounds := Rect.from_min_max
      { x := bounds.min.x - screen_info.bounds.min.x,
        y := bounds.min.y - screen_info.bounds.min.y }
      { x := bounds.max.x - screen_info.bounds.min.x,
        y := bounds.max.y - screen_info.bounds.min.y }
    .ok (CaptureArea.with_dpi_scaling relative_bounds screen_info.index
          screen_info.dpi_scale_x screen_info.dpi_scale_y)

/-- The cast `as u32` that capture_area applies to the physical crop
coordinates: truncation toward zero, saturating at zero from below and
at the largest 32-bit value from above. -/
def rat_to_u32 (q : ℚ) : ℕ :=
  if q < 0 then 0 else min (Int.toNat ⌊q⌋) (2 ^ 32 - 1)

/-- The bounds validation of capture_area, exactly the if condition of
the source: the physical rectangle fails validation when its min is
negative on either axis or its max exceeds the registry screen bounds
max scaled by the registry DPI scale on either axis. -/
def area_out_of_bounds_check (physical_bounds : Rect)
    (screen_info : ScreenInfo) : Bool :=
  decide (physical_bounds.min.x < 0) || decide (physical_bounds.min.y < 0) ||
  decide (physical_bounds.max.x > screen_info.bounds.max.x * screen_info.dpi_scale_x) ||
  decide (physical_bounds.max.y > screen_info.bounds.max.y * screen_info.dpi_scale_y)

/-- CaptureService::capture_area, instrumented: returns the result
together with a flag recording whether the crop step ran. The steps
follow the source in order: capture the full screen image, compute the
physical bounds of the area, look up the registry screen info, validate
the physical bounds against the registry extent, and only then crop.
The crop argument models DynamicImage::crop_imm. -/
def CaptureService.capture_area_run (decode : List ℕ → Except String Img)
    (crop : Img → ℕ → ℕ → ℕ → ℕ → Img) (svc : CaptureService)
    (area : CaptureArea) : Except AppError Img × Bool :=
  match svc.capture_screen_by_index decode area.screen_index with
  | .error e => (.error e, false)
  | .ok full_image =>
    let physical_bounds := area.physical_bounds
    match svc.get_screen_info area.screen_index with
    | .error e => (.error e, false)
    | .ok screen_info =>
      if area_out_of_bounds_check physical_bounds screen_info then
        (.error (.ScreenCapture "Capture area extends beyond screen boundaries"),
         false)
      else
        (.ok (crop full_image
               (rat_to_u32 physical_bounds.min.x)
               (rat_to_u32 physical_bounds.min.y)
               (rat_to_u32 physical_bounds.width)
               (rat_to_u32 physical_bounds.height)),
         true)

/-- CaptureService::capture_area: the result component of the
instrumented run. -/
def CaptureService.capture_area (decode : List ℕ → Except String Img)
    (crop : Img → ℕ → ℕ → ℕ → ℕ → Img) (svc : CaptureService)
    (area : CaptureArea) : Except AppError Img :=
  (svc.capture_area_run decode crop area).1

/-- The desktop-bounds fold of get_desktop_bounds: walk the cached
screens keeping component-wise min of the min corners and max of the max
corners. The none accumulator models the initial sentinel values
(f32 MAX and MIN) that no screen has updated yet. -/
def desktop_fold : Option (ℚ × ℚ × ℚ × ℚ) → List ScreenInfo →
    Option (ℚ × ℚ × ℚ × ℚ)
  | acc, [] => acc
  | none, s :: rest =>
      desktop_fold (some (s.bounds.min.x, s.bounds.min.y,
                          s.bounds.max.x, s.bounds.max.y)) rest
  | some (a, b, c, d), s :: rest =>
      desktop_fold (some (min a s.bounds.min.x, min b s.bounds.min.y,
                          max c s.bounds.max.x, max d s.bounds.max.y)) rest

/-- CaptureService::get_desktop_bounds: fold all cached screens with
component-wise min and max; when the sentinel was never updated (empty
registry) return the default rectangle at the origin with size
1920 by 1080. -/
def CaptureService.get_desktop_bounds (svc : CaptureService) : Rect :=
  match desktop_fold none svc.values with
  | none => Rect.from_min_size { x := 0, y := 0 } { x := 1920, y := 1080 }
  | some (min_x, min_y, max_x, max_y) =>
      Rect.from_min_max { x := min_x, y := min_y } { x := max_x, y := max_y }

/-- A service with no screens and an empty cache. -/
def empty_service : CaptureService :=
  { screens := [], screen_cache := [] }

/-- A 1920 by 1080 screen at the origin whose platform capture declines. -/
def scr0 : Screen :=
  { x := 0, y := 0, width := 1920, height := 1080, capture_result := none }

/-- A 1920 by 1080 screen at the origin whose platform capture returns an
encoded buffer. -/
def scr_ok : Screen :=
  { x := 0, y := 0, width := 1920, height := 1080, capture_result := some [] }

/-- A one-screen service whose platform capture declines. -/
def svc_one : CaptureService :=
  { screens := [scr0], screen_cache := [(0, mk_screen_info 0 scr0)] }

/-- A one-screen service whose platform capture succeeds. -/
def svc_ok : CaptureService :=
  { screens := [scr_ok], screen_cache := [(0, mk_screen_info 0 scr_ok)] }

/-- A decode function that always succeeds. -/
def decode_ok : List ℕ → Except String Img :=
  fun _ => .ok { width := 1, height := 1 }

/-- A decode function that always fails. -/
def decode_fail : List ℕ → Except String Img :=
  fun _ => .error "invalid png"

/-- A crop function that returns the image unchanged. -/
def crop_id : Img → ℕ → ℕ → ℕ → ℕ → Img :=
  fun img _ _ _ _ => img

/-- C7: physical_bounds is the linear component-wise DPI scaling of
bounds — its min is the component-wise product of the bounds min with
the axis scales and its width and height are the bounds width and height
times the respective scales; at bounds min (10,20) size (100,50) with
scales (2, 3/2) the result is min (20,30) size (200,75). -/
theorem c7_physical_bounds_linear :
    (∀ a : CaptureArea,
       (a.physical_bounds).min =
         { x := a.bounds.min.x * a.dpi_scale_x, y := a.bounds.min.y * a.dpi_scale_y } ∧
       (a.physical_bounds).width = a.bounds.width * a.dpi_scale_x ∧
       (a.physical_bounds).height = a.bounds.height * a.dpi_scale_y)
    ∧ (CaptureArea.with_dpi_scaling
         (Rect.from_min_size { x := 10, y := 20 } { x := 100, y := 50 })
         0 2 (3 / 2)).physical_bounds
       = Rect.from_min_size { x := 20, y := 30 } { x := 200, y := 75 } := by
  constructor
  · intro a
    refine ⟨rfl, ?_, ?_⟩ <;>
      · simp only [CaptureArea.physical_bounds, Rect.from_min_size, Rect.width,
          Rect.height]
        ring
  · norm_num [CaptureArea.with_dpi_scaling, CaptureArea.physical_bounds,
      Rect.from_min_size, Rect.width, Rect.height]

/-- C8: create_capture_area is symmetric in its two points, and the
normalized rectangle has the component-wise min of the two points as its
min corner and the component-wise max as its max corner; in particular
both orders of the points (300,200) and (100,100) normalize to the
rectangle with min (100,100) and max (300,200). -/
theorem c8_create_capture_area_symmetric :
    (∀ (svc : CaptureService) (start finish : Pos2),
       svc.create_capture_area start finish = svc.create_capture_area finish start)
    ∧ (∀ start finish : Pos2,
       normalize_selection start finish
         = Rect.from_min_max
             { x := min start.x finish.x, y := min start.y finish.y }
             { x := max start.x finish.x, y := max start.y finish.y }
       ∧ normalize_selection start finish = normalize_selection finish start)
    ∧ normalize_selection { x := 300, y := 200 } { x := 100, y := 100 }
        = Rect.from_min_max { x := 100, y := 100 } { x := 300, y := 200 }
    ∧ normalize_selection { x := 100, y := 100 } { x := 300, y := 200 }
        = Rect.from_min_max { x := 100, y := 100 } { x := 300, y := 200 } := by
  have hnorm : ∀ start finish : Pos2,
      normalize_selection start finish = normalize_selection finish start := by
    intro s f
    unfold normalize_selection
    rw [min_comm s.x f.x, min_comm s.y f.y, max_comm s.x f.x, max_comm s.y f.y]
  refine ⟨?_, fun s f => ⟨rfl, hnorm s f⟩,
    by norm_num [normalize_selection, Rect.from_min_max],
    by norm_num [normalize_selection, Rect.from_min_max]⟩
  intro svc s f
  unfold CaptureService.create_capture_area
  rw [hnorm s f]

/-- C4 counterexample: with a single screen spanning min (0,0) to max
(1920,1080), the point (1920,1080) — both coordinates exactly equal to
the screen bounds max — is reported as contained, and
find_screen_at_point returns that screen, where the claim says such a
point is outside every screen. -/
theorem c4_counterexample :
    svc_one.find_screen_at_point { x := 1920, y := 1080 }
      = some (mk_screen_info 0 scr0)
    ∧ (mk_screen_info 0 scr0).bounds.contains { x := 1920, y := 1080 } = true := by
  norm_num [svc_one, scr0, mk_screen_info, CaptureService.find_screen_at_point,
    CaptureService.values, Rect.contains, Rect.from_min_size, List.find?]

/-- C4 amended: rectangle containment in find_screen_at_point is
inclusive on both edges — a point p is inside a screen s exactly when
s.bounds.min is component-wise at most p and p is component-wise at most
s.bounds.max, so a point with a coordinate exactly equal to a coordinate
of s.bounds.max is still inside; find_screen_at_point returns the first
cached screen passing this test. -/
theorem c4_contains_inclusive :
    (∀ (r : Rect) (p : Pos2),
       r.contains p = true ↔
         (r.min.x ≤ p.x ∧ p.x ≤ r.max.x ∧ r.min.y ≤ p.y ∧ p.y ≤ r.max.y))
    ∧ (∀ (svc : CaptureService) (p : Pos2),
       svc.find_screen_at_point p
         = svc.values.find? (fun s => s.bounds.contains p)) := by
  constructor
  · intro r p
    simp [Rect.contains, and_assoc]
  · intro svc p
    rfl

/-- C3 counterexample: refresh_screen_info with an empty display
enumeration succeeds (returns ok with an empty cache) rather than
failing with a no-displays error. -/
theorem c3_counterexample :
    CaptureService.refresh_screen_info [] empty_service = .ok empty_service
    ∧ (CaptureService.refresh_screen_info [] empty_service).isOk = true := by
  exact ⟨rfl, rfl⟩

/-- C3 amended: the zero-screens check lives in construction, not in
refresh — new fails with the no-displays error when enumeration yields
zero screens, while refresh_screen_info itself always succeeds, leaving
an empty registry when the enumeration is empty. -/
theorem c3_no_displays_check_in_new :
    (∀ svc : CaptureService,
       CaptureService.refresh_screen_info [] svc = .ok empty_service)
    ∧ CaptureService.new []
        = .error (.ScreenCapture "No screens found on the system")
    ∧ (∀ (avail : List Screen) (svc : CaptureService),
       (CaptureService.refresh_screen_info avail svc).isOk = true) := by
  exact ⟨fun _ => rfl, rfl, fun _ _ => rfl⟩

/-- C10: whenever construction via new fails, the Default implementation
returns (it is a total function, so it cannot panic) a service with an
empty screen list and an empty screen cache. -/
theorem c10_default_fallback (avail : List Screen) (e : AppError)
    (h : CaptureService.new avail = .error e) :
    CaptureService.default avail = empty_service := by
  unfold CaptureService.default
  rw [h]
  rfl

/-- C10 witness: with an empty enumeration, new fails and the default
construction yields the empty service. -/
theorem c10_default_fallback_witness :
    CaptureService.default [] = empty_service :=
  c10_default_fallback [] (.ScreenCapture "No screens found on the system") rfl

/-- Two character-list concatenations differ when the underlying lists
differ within a common length n that both left parts cover. -/
lemma take_ne_append {l1 l2 a b : List Char} (n : ℕ) (h1 : n ≤ l1.length)
    (h2 : n ≤ l2.length) (hne : l1.take n ≠ l2.take n) : l1 ++ a ≠ l2 ++ b := by
  intro h
  apply hne
  have h3 := congrArg (List.take n) h
  rwa [List.take_append_of_le_length h1, List.take_append_of_le_length h2] at h3

/-- The capture-refused message and the decode-failed message of
capture_screen_by_index never coincide, whatever follows their fixed
leading texts. -/
lemma capture_decode_msg_ne (a b : String) :
    ("Failed to capture screen " ++ a) ≠ ("Failed to decode PNG data: " ++ b) := by
  intro h
  have hd : ("Failed to capture screen ").data ++ a.data
      = ("Failed to decode PNG data: ").data ++ b.data := congrArg String.data h
  exact take_ne_append 11 (by decide) (by decide) (by decide) hd

/-- C5 counterexample: a declined platform capture and a failed decode
both come back as the ScreenCapture constructor of AppError — the very
same kind — so the two conditions cannot be told apart from the kind of
the returned error value, contrary to the claim. -/
theorem c5_counterexample :
    CaptureService.capture_screen_by_index decode_ok svc_one 0
      = .error (.ScreenCapture "Failed to capture screen 0")
    ∧ CaptureService.capture_screen_by_index decode_fail svc_ok 0
        = .error (.ScreenCapture "Failed to decode PNG data: invalid png")
    ∧ AppError.kind (.ScreenCapture "Failed to capture screen 0")
        = AppError.kind (.ScreenCapture "Failed to decode PNG data: invalid png") := by
  exact ⟨rfl, rfl, rfl⟩

/-- C5 amended: when the platform declines, capture_screen_by_index
fails with the capture-failed message, and when the platform returns
bytes the decode function rejects, it fails with the decode-failed
message; both errors carry the same kind (the ScreenCapture constructor
of AppError), so a caller distinguishes the two conditions only by the
message text, which always differs between the two failure modes, never
by the error kind. -/
theorem c5_same_kind_distinct_message (decode : List ℕ → Except String Img)
    (svc : CaptureService) (idx : ℕ) (screen : Screen)
    (hs : svc.screens.get? idx = some screen) :
    (screen.capture_result = none →
       svc.capture_screen_by_index decode idx
         = .error (.ScreenCapture ("Failed to capture screen " ++ toString idx)))
    ∧ (∀ (buffer : List ℕ) (r : String), screen.capture_result = some buffer →
         decode buffer = .error r →
         svc.capture_screen_by_index decode idx
           = .error (.ScreenCapture ("Failed to decode PNG data: " ++ r)))
    ∧ (∀ r : String,
         AppError.kind (.ScreenCapture ("Failed to capture screen " ++ toString idx))
           = AppError.kind (.ScreenCapture ("Failed to decode PNG data: " ++ r)))
    ∧ (∀ r : String,
         AppError.ScreenCapture ("Failed to capture screen " ++ toString idx)
           ≠ AppError.ScreenCapture ("Failed to decode PNG data: " ++ r)) := by
  refine ⟨?_, ?_, fun r => rfl, ?_⟩
  · intro hcap
    simp only [CaptureService.capture_screen_by_index, hs, hcap]
  · intro buffer r hcap hdec
    simp only [CaptureService.capture_screen_by_index, hs, hcap, hdec]
  · intro r h
    have hmsg : ("Failed to capture screen " ++ toString idx)
        = ("Failed to decode PNG data: " ++ r) := by
      injection h
    exact capture_decode_msg_ne (toString idx) r hmsg

/-- C5 amended witness: at the concrete one-screen service whose
platform capture declines, the theorem yields the capture-failed error. -/
theorem c5_same_kind_distinct_message_witness :
    CaptureService.capture_screen_by_index decode_ok svc_one 0
      = .error (.ScreenCapture ("Failed to capture screen " ++ toString (0 : ℕ))) :=
  (c5_same_kind_distinct_message decode_ok svc_one 0 scr0 rfl).1 rfl

/-- C2: create_capture_area resolves the owning screen by testing which
registered screen contains the center of the normalized rectangle — it
fails with the selection-not-on-screen error exactly when no registered
screen contains that center, and otherwise returns a CaptureArea whose
bounds are the normalized rectangle translated by the owning screen
bounds min, whose screen_index is the owning screen index, and whose DPI
scale fields equal the owning screen DPI scale values. -/
theorem c2_create_capture_area_resolution (svc : CaptureService)
    (start finish : Pos2) :
    ((svc.create_capture_area start finish
        = .error (.ScreenCapture "Selection area is not within any screen"))
      ↔ ∀ s ∈ svc.values,
          s.bounds.contains (normalize_selection start finish).center = false)
    ∧ (∀ info : ScreenInfo,
        svc.find_screen_at_point (normalize_selection start finish).center
          = some info →
        info ∈ svc.values
        ∧ info.bounds.contains (normalize_selection start finish).center = true
        ∧ svc.create_capture_area start finish
            = .ok { bounds := Rect.from_min_max
                      { x := (normalize_selection start finish).min.x
                               - info.bounds.min.x,
                        y := (normalize_selection start finish).min.y
                               - info.bounds.min.y }
                      { x := (normalize_selection start finish).max.x
                               - info.bounds.min.x,
                        y := (normalize_selection start finish).max.y
                               - info.bounds.min.y },
                    screen_index := info.index,
                    dpi_scale_x := info.dpi_scale_x,
                    dpi_scale_y := info.dpi_scale_y }) := by
  cases h : svc.find_screen_at_point (normalize_selection start finish).center with
  | none =>
    have h0 : List.find?
        (fun s => s.bounds.contains (normalize_selection start finish).center)
        svc.values = none := h
    constructor
    · simp only [CaptureService.create_capture_area, h]
      have hall := (List.find?_eq_none).mp h0
      constructor
      · intro _ s hs
        simpa using hall s hs
      · intro _
        trivial
    · intro info hinfo
      exact Option.noConfusion hinfo
  | some found =>
    have h0 : List.find?
        (fun s => s.bounds.contains (normalize_selection start finish).center)
        svc.values = some found := h
    have hmem : found ∈ svc.values := List.mem_of_find?_eq_some h0
    have hcont : found.bounds.contains (normalize_selection start finish).center
        = true := by
      have hcont0 := List.find?_some h0
      simpa using hcont0
    constructor
    · simp only [CaptureService.create_capture_area, h]
      constructor
      · intro hbad
        exact absurd hbad (by simp)
      · intro hall
        exact absurd (hall found hmem) (by simp [hcont])
    · intro info hinfo
      have hsame : found = info := Option.some.inj hinfo
      subst hsame
      refine ⟨hmem, hcont, ?_⟩
      simp only [CaptureService.create_capture_area, h,
        CaptureArea.with_dpi_scaling]

/-- C2 witness: on a one-screen service at the origin, the drag from
(100,100) to (300,200) has its center on the screen and yields the area
with bounds min (100,100) max (300,200), screen index 0 and unit DPI
scales. -/
theorem c2_create_capture_area_resolution_witness :
    svc_ok.create_capture_area { x := 100, y := 100 } { x := 300, y := 200 }
      = .ok { bounds := { min := { x := 100, y := 100 },
                          max := { x := 300, y := 200 } },
              screen_index := 0, dpi_scale_x := 1, dpi_scale_y := 1 } := by
  have hfind : svc_ok.find_screen_at_point
      (normalize_selection { x := 100, y := 100 } { x := 300, y := 200 }).center
        = some (mk_screen_info 0 scr_ok) := by
    norm_num [svc_ok, scr_ok, mk_screen_info, CaptureService.find_screen_at_point,
      CaptureService.values, Rect.contains, Rect.from_min_size,
      normalize_selection, Rect.from_min_max, Rect.center, List.find?]
  have h := (c2_create_capture_area_resolution svc_ok
      { x := 100, y := 100 } { x := 300, y := 200 }).2 (mk_screen_info 0 scr_ok) hfind
  rw [h.2.2]
  norm_num [normalize_selection, Rect.from_min_max, mk_screen_info, scr_ok,
    Rect.from_min_size]

/-- An area whose physical bounds extend far beyond the 1920 by 1080
screen extent. -/
def area_oob : CaptureArea :=
  CaptureArea.with_dpi_scaling
    (Rect.from_min_max { x := 0, y := 0 } { x := 5000, y := 5000 }) 0 1 1

/-- C1: for an area whose screen index is registered, once the full
screen capture of that screen succeeds, capture_area returns the
area-out-of-bounds error exactly when the area physical_bounds fail the
validation against the registry screen info — min negative on either
axis, or max exceeding the registry bounds max times the registry DPI
scale on either axis (the registry scale, not the scale stored on the
area); and whenever that validation condition holds the crop step is
never performed. -/
theorem c1_capture_area_validation (decode : List ℕ → Except String Img)
    (crop : Img → ℕ → ℕ → ℕ → ℕ → Img) (svc : CaptureService)
    (area : CaptureArea) (info : ScreenInfo)
    (hreg : svc.get_screen_info area.screen_index = .ok info) :
    (∀ img : Img, svc.capture_screen_by_index decode area.screen_index = .ok img →
       ((CaptureService.capture_area decode crop svc area
           = .error (.ScreenCapture "Capture area extends beyond screen boundaries"))
         ↔ area_out_of_bounds_check area.physical_bounds info = true))
    ∧ (area_out_of_bounds_check area.physical_bounds info = true →
         (CaptureService.capture_area_run decode crop svc area).2 = false) := by
  constructor
  · intro img hcap
    simp only [CaptureService.capture_area, CaptureService.capture_area_run,
      hcap, hreg]
    by_cases hb : area_out_of_bounds_check area.physical_bounds info = true
    · simp [hb]
    · rw [Bool.not_eq_true] at hb
      simp [hb]
  · intro hb
    cases hcap : svc.capture_screen_by_index decode area.screen_index with
    | error e =>
      simp only [CaptureService.capture_area_run, hcap]
    | ok img =>
      simp only [CaptureService.capture_area_run, hcap, hreg]
      simp [hb]

/-- C1 witness: on the one-screen service with a successful platform
capture, the concrete area reaching to (5000,5000) fails validation, so
capture_area returns the area-out-of-bounds error and the crop step does
not run. -/
theorem c1_capture_area_validation_witness :
    CaptureService.capture_area decode_ok crop_id svc_ok area_oob
      = .error (.ScreenCapture "Capture area extends beyond screen boundaries")
    ∧ (CaptureService.capture_area_run decode_ok crop_id svc_ok area_oob).2
        = false := by
  have h := c1_capture_area_validation decode_ok crop_id svc_ok area_oob
    (mk_screen_info 0 scr_ok) rfl
  have hb : area_out_of_bounds_check area_oob.physical_bounds
      (mk_screen_info 0 scr_ok) = true := by
    norm_num [area_oob, area_out_of_bounds_check, CaptureArea.physical_bounds,
      CaptureArea.with_dpi_scaling, mk_screen_info, scr_ok, Rect.from_min_size,
      Rect.from_min_max, Rect.width, Rect.height]
  exact ⟨(h.1 { width := 1, height := 1 } rfl).mpr hb, h.2 hb⟩

/-- A degenerate platform screen reporting zero width and height. -/
def degenerate_screen : Screen :=
  { x := 0, y := 0, width := 0, height := 0, capture_result := none }

/-- Every screen info among the values of a rebuilt cache comes from
some enumerated screen via mk_screen_info. -/
lemma mem_build_cache_values {i : ℕ} {l : List Screen} {info : ScreenInfo}
    (h : info ∈ (build_cache_from i l).map Prod.snd) :
    ∃ j s, s ∈ l ∧ info = mk_screen_info j s := by
  induction l generalizing i with
  | nil => simp [build_cache_from] at h
  | cons a rest ih =>
    simp only [build_cache_from, List.map_cons, List.mem_cons] at h
    rcases h with h | h
    · exact ⟨i, a, List.mem_cons_self a rest, h⟩
    · obtain ⟨j, s, hs, hinfo⟩ := ih h
      exact ⟨j, s, List.mem_cons_of_mem a hs, hinfo⟩

/-- A cache built from a nonzero starting index contains no primary
screen, since is_primary is the index-equals-zero test. -/
lemma build_cache_from_no_primary (l : List Screen) :
    ∀ i : ℕ, i ≠ 0 →
      (((build_cache_from i l).map Prod.snd).filter
        (fun s => s.is_primary)) = [] := by
  induction l with
  | nil => intro i _; rfl
  | cons a rest ih =>
    intro i hi
    have hb : (mk_screen_info i a).is_primary = false := by
      simp [mk_screen_info, hi]
    simp only [build_cache_from, List.map_cons]
    rw [List.filter_cons_of_neg (by simp [hb])]
    exact ih (i + 1) (Nat.succ_ne_zero i)

/-- C9 counterexample: refresh always reports success, so with an empty
enumeration a successful refresh leaves a snapshot with zero primary
screens, and with a degenerate zero-sized screen a successful refresh
registers a ScreenInfo of width zero — both against the claimed
invariants. -/
theorem c9_counterexample :
    (CaptureService.refresh_screen_info [] empty_service = .ok empty_service
      ∧ (empty_service.values.filter (fun s => s.is_primary)).length = 0)
    ∧ (CaptureService.refresh_screen_info [degenerate_screen] empty_service
         = .ok { screens := [degenerate_screen],
                 screen_cache := [(0, mk_screen_info 0 degenerate_screen)] }
      ∧ (mk_screen_info 0 degenerate_screen).bounds.width = 0
      ∧ (mk_screen_info 0 degenerate_screen).is_primary = true) := by
  refine ⟨⟨rfl, rfl⟩, rfl, ?_, rfl⟩
  norm_num [mk_screen_info, degenerate_screen, Rect.from_min_size, Rect.width]

/-- C9 amended: a refresh over a nonempty enumeration in which every
platform screen has positive width and height produces a snapshot
satisfying the ScreenInfo invariants — every registered ScreenInfo has
positive bounds width and height, and exactly one registered screen is
primary (the one with index zero). -/
theorem c9_refresh_invariants (avail : List Screen) (svc svc2 : CaptureService)
    (hne : avail ≠ [])
    (hpos : ∀ s ∈ avail, 0 < s.width ∧ 0 < s.height)
    (hr : CaptureService.refresh_screen_info avail svc = .ok svc2) :
    (∀ info ∈ svc2.values, 0 < info.bounds.width ∧ 0 < info.bounds.height)
    ∧ (svc2.values.filter (fun s => s.is_primary)).length = 1 := by
  have hsvc2 : svc2
      = { screens := avail, screen_cache := build_cache_from 0 avail } :=
    (Except.ok.inj hr).symm
  subst hsvc2
  constructor
  · intro info hinfo
    obtain ⟨j, s, hs, hinfo⟩ := mem_build_cache_values hinfo
    obtain ⟨hw, hh⟩ := hpos s hs
    subst hinfo
    constructor
    · have : ((s.x : ℚ) + (s.width : ℚ)) - (s.x : ℚ) = (s.width : ℚ) := by ring
      simp only [mk_screen_info, Rect.from_min_size, Rect.width, this]
      exact_mod_cast hw
    · have : ((s.y : ℚ) + (s.height : ℚ)) - (s.y : ℚ) = (s.height : ℚ) := by ring
      simp only [mk_screen_info, Rect.from_min_size, Rect.height, this]
      exact_mod_cast hh
  · cases avail with
    | nil => exact absurd rfl hne
    | cons a rest =>
      show ((((build_cache_from 0 (a :: rest)).map Prod.snd).filter
        (fun s => s.is_primary))).length = 1
      simp only [build_cache_from, List.map_cons]
      rw [List.filter_cons_of_pos (by simp [mk_screen_info])]
      rw [build_cache_from_no_primary rest 1 (Nat.one_ne_zero)]
      rfl

/-- C9 amended witness: refreshing over the single healthy 1920 by 1080
screen yields a snapshot with exactly one primary screen. -/
theorem c9_refresh_invariants_witness :
    ((({ screens := [scr_ok],
         screen_cache := build_cache_from 0 [scr_ok] } : CaptureService)).values.filter
      (fun s => s.is_primary)).length = 1 := by
  have h := c9_refresh_invariants [scr_ok] empty_service
    { screens := [scr_ok], screen_cache := build_cache_from 0 [scr_ok] }
    (List.cons_ne_nil scr_ok [])
    (by
      intro s hs
      rw [List.mem_singleton] at hs
      subst hs
      exact ⟨by norm_num [scr_ok], by norm_num [scr_ok]⟩)
    rfl
  exact h.2

/-- Specification of the desktop fold started from a concrete
accumulator: the fold yields component-wise lower bounds of all min
corners and upper bounds of all max corners, at most (respectively at
least) the starting accumulator, and the result is tight — any rectangle
below the accumulator and covering every folded screen also bounds the
result. -/
lemma desktop_fold_spec (l : List ScreenInfo) (q : ℚ × ℚ × ℚ × ℚ) :
    ∃ a b c d, desktop_fold (some q) l = some (a, b, c, d)
      ∧ a ≤ q.1 ∧ b ≤ q.2.1 ∧ q.2.2.1 ≤ c ∧ q.2.2.2 ≤ d
      ∧ (∀ s ∈ l, a ≤ s.bounds.min.x ∧ b ≤ s.bounds.min.y
            ∧ s.bounds.max.x ≤ c ∧ s.bounds.max.y ≤ d)
      ∧ (∀ r : Rect, r.min.x ≤ q.1 → r.min.y ≤ q.2.1 → q.2.2.1 ≤ r.max.x →
            q.2.2.2 ≤ r.max.y → (∀ s ∈ l, rect_covers r s.bounds) →
            r.min.x ≤ a ∧ r.min.y ≤ b ∧ c ≤ r.max.x ∧ d ≤ r.max.y) := by
  induction l generalizing q with
  | nil =>
    obtain ⟨a, b, c, d⟩ := q
    exact ⟨a, b, c, d, rfl, le_refl a, le_refl b, le_refl c, le_refl d,
      fun s hs => absurd hs (List.not_mem_nil s),
      fun r h1 h2 h3 h4 _ => ⟨h1, h2, h3, h4⟩⟩
  | cons s0 rest ih =>
    obtain ⟨a0, b0, c0, d0⟩ := q
    obtain ⟨a, b, c, d, hfold, ha, hb, hc, hd, hmem, htight⟩ :=
      ih (min a0 s0.bounds.min.x, min b0 s0.bounds.min.y,
          max c0 s0.bounds.max.x, max d0 s0.bounds.max.y)
    refine ⟨a, b, c, d, hfold, ?_, ?_, ?_, ?_, ?_, ?_⟩
    · exact ha.trans (min_le_left _ _)
    · exact hb.trans (min_le_left _ _)
    · exact (le_max_left _ _).trans hc
    · exact (le_max_left _ _).trans hd
    · intro s hs
      rcases List.mem_cons.mp hs with hs | hs
      · subst hs
        exact ⟨ha.trans (min_le_right _ _), hb.trans (min_le_right _ _),
          (le_max_right _ _).trans hc, (le_max_right _ _).trans hd⟩
      · exact hmem s hs
    · intro r h1 h2 h3 h4 hcov
      obtain ⟨k1, k2, k3, k4⟩ := hcov s0 (List.mem_cons_self s0 rest)
      exact htight r (le_min h1 k1) (le_min h2 k2) (max_le h3 k3)
        (max_le h4 k4) (fun s hs => hcov s (List.mem_cons_of_mem s0 hs))

/-- C6: get_desktop_bounds on an empty registry returns exactly the
default rectangle at the origin with size 1920 by 1080; on a nonempty
registry it returns the minimal axis-aligned rectangle covering every
registered screen bounds (it covers each screen and is contained in
every rectangle that covers them all), and consequently its area is at
least the area of each individual screen whose width and height are
nonnegative. -/
theorem c6_get_desktop_bounds :
    (∀ svc : CaptureService, svc.values = [] →
       svc.get_desktop_bounds
         = Rect.from_min_size { x := 0, y := 0 } { x := 1920, y := 1080 })
    ∧ (∀ svc : CaptureService, svc.values ≠ [] →
       (∀ s ∈ svc.values,
          rect_covers svc.get_desktop_bounds s.bounds
          ∧ (0 ≤ s.bounds.width → 0 ≤ s.bounds.height →
               s.bounds.area ≤ svc.get_desktop_bounds.area))
       ∧ (∀ r : Rect, (∀ s ∈ svc.values, rect_covers r s.bounds) →
            rect_covers r svc.get_desktop_bounds)) := by
  constructor
  · intro svc h
    unfold CaptureService.get_desktop_bounds
    rw [h]
    rfl
  · intro svc h
    obtain ⟨s0, rest, hval⟩ := List.exists_cons_of_ne_nil h
    obtain ⟨a, b, c, d, hfold, ha, hb, hc, hd, hmem, htight⟩ :=
      desktop_fold_spec rest (s0.bounds.min.x, s0.bounds.min.y,
        s0.bounds.max.x, s0.bounds.max.y)
    have hdb : svc.get_desktop_bounds
        = Rect.from_min_max { x := a, y := b } { x := c, y := d } := by
      unfold CaptureService.get_desktop_bounds
      rw [hval]
      show (match desktop_fold (some (s0.bounds.min.x, s0.bounds.min.y,
          s0.bounds.max.x, s0.bounds.max.y)) rest with
        | none => Rect.from_min_size { x := 0, y := 0 } { x := 1920, y := 1080 }
        | some (min_x, min_y, max_x, max_y) =>
            Rect.from_min_max { x := min_x, y := min_y }
              { x := max_x, y := max_y }) = _
      rw [hfold]
    have hcover : ∀ s ∈ svc.values, rect_covers svc.get_desktop_bounds s.bounds := by
      intro s hs
      rw [hdb]
      rw [hval] at hs
      rcases List.mem_cons.mp hs with hs | hs
      · subst hs
        exact ⟨ha, hb, hc, hd⟩
      · exact hmem s hs
    constructor
    · intro s hs
      refine ⟨hcover s hs, ?_⟩
      intro hw hh
      obtain ⟨k1, k2, k3, k4⟩ := hcover s hs
      rw [hdb] at k1 k2 k3 k4 ⊢
      have hw2 : s.bounds.width
          ≤ (Rect.from_min_max { x := a, y := b } { x := c, y := d }).width := by
        simp only [Rect.width, Rect.from_min_max] at k1 k3 ⊢
        exact sub_le_sub k3 k1
      have hh2 : s.bounds.height
          ≤ (Rect.from_min_max { x := a, y := b } { x := c, y := d }).height := by
        simp only [Rect.height, Rect.from_min_max] at k2 k4 ⊢
        exact sub_le_sub k4 k2
      unfold Rect.area
      exact mul_le_mul hw2 hh2 hh (hw.trans hw2)
    · intro r hr
      rw [hval] at hr
      obtain ⟨k1, k2, k3, k4⟩ := hr s0 (List.mem_cons_self s0 rest)
      have := htight r k1 k2 k3 k4
        (fun s hs => hr s (List.mem_cons_of_mem s0 hs))
      rw [hdb]
      exact this

/-- A screen info for a 1920 by 1080 primary display at the origin. -/
def info_a : ScreenInfo :=
  { index := 0,
    bounds := { min := { x := 0, y := 0 }, max := { x := 1920, y := 1080 } },
    dpi_scale_x := 1, dpi_scale_y := 1, is_primary := true }

/-- A screen info for a second 1920 by 1080 display to the right. -/
def info_b : ScreenInfo :=
  { index := 1,
    bounds := { min := { x := 1920, y := 0 }, max := { x := 3840, y := 1080 } },
    dpi_scale_x := 1, dpi_scale_y := 1, is_primary := false }

/-- A two-screen service for the desktop-bounds witness. -/
def svc_two : CaptureService :=
  { screens := [], screen_cache := [(0, info_a), (1, info_b)] }

/-- C6 witness: the empty registry yields exactly the 1920 by 1080
default, and on the concrete two-screen registry the desktop bounds
cover the first screen and have at least its area. -/
theorem c6_get_desktop_bounds_witness :
    empty_service.get_desktop_bounds
      = Rect.from_min_size { x := 0, y := 0 } { x := 1920, y := 1080 }
    ∧ rect_covers svc_two.get_desktop_bounds info_a.bounds
    ∧ info_a.bounds.area ≤ svc_two.get_desktop_bounds.area := by
  have h1 := c6_get_desktop_bounds.1 empty_service rfl
  have hne : svc_two.values ≠ [] := by
    simp [svc_two, CaptureService.values]
  have hmem : info_a ∈ svc_two.values := by
    simp [svc_two, CaptureService.values]
  have h2 := (c6_get_desktop_bounds.2 svc_two hne).1 info_a hmem
  refine ⟨h1, h2.1, h2.2 ?_ ?_⟩
  · norm_num [info_a, Rect.width]
  · norm_num [info_a, Rect.height]
